import Mathlib

/-!
Verification development for the Jennov PTZ camera controller.

Part 1 models the command dispatcher of `camera_control_ultra.py`
(class `JennovCameraUltra`): velocity templates, envelope construction,
fire-and-forget dispatch, keep-alive probing, and session establishment.

Part 2 models the media ingest loop of `camera_gui.py`
(class `VideoThread`): the frame-read loop with its consecutive-failure
counter and reconnect behaviour, and the recording sub-contract.

Numeric velocity values are modelled with `ℚ`; every product appearing in
the code multiplies a caller magnitude by `-1`, `0` or `1`, which is exact
in binary floating point, so rationals are a faithful carrier.
-/

/-- Velocity template entry: mirrors the Python dict
`{'PanTilt': {'x': vx, 'y': vy}, 'Zoom': {'x': vz}}` (lines 64-71). -/
structure Vel where
  panX : ℚ
  panY : ℚ
  zoomX : ℚ
deriving DecidableEq

/-- The SOAP ContinuousMove envelope after `soap_move_template.format(...)`:
the profile token plus the three formatted velocity components
(lines 136-141). -/
structure MoveEnvelope where
  token : String
  pan : ℚ
  tilt : ℚ
  zoom : ℚ
deriving DecidableEq

/-- The SOAP Stop envelope after `soap_stop_template.format(token=...)`
(line 175); its PanTilt/Zoom flags are the literal `true` of the template. -/
structure StopEnvelope where
  token : String
  panTilt : Bool
  zoom : Bool
deriving DecidableEq

/-- The pre-created ONVIF `ContinuousMove` request object (lines 55-56).
`velocity` starts unset and is assigned by `move_fast` (line 159). -/
structure MoveRequest where
  profileToken : String
  velocity : Option Vel
deriving DecidableEq

/-- The pre-created ONVIF `Stop` request object (lines 58-61). -/
structure StopRequest where
  profileToken : String
  panTilt : Bool
  zoom : Bool
deriving DecidableEq

/-- A freshly built ONVIF `GotoPreset` request (lines 253-256). -/
structure GotoPresetRequest where
  profileToken : String
  presetToken : String
  speedPanX : ℚ
  speedPanY : ℚ
  speedZoomX : ℚ
deriving DecidableEq

/-- Transport-level failures that a post/send can raise. -/
inductive TransportError where
  | timeout
  | connectionReset
deriving DecidableEq

/-- Failures of session establishment inside `__init__` (lines 24-37):
the ONVIF connection/authentication round trip, or resolving
`profiles[0].token` from an empty profile list. -/
inductive ConnectionError where
  | authRejected
  | profileResolutionFailed
deriving DecidableEq

/-- Instance state of `JennovCameraUltra` after `__init__`. -/
structure Camera where
  ip : String
  port : Nat
  token : String
  velocities : String → Option Vel
  speed_multipliers : String → Option ℚ
  move_request : MoveRequest
  stop_request : StopRequest
  keep_alive_active : Bool

/-- The fixed velocity-template table assigned to `self.velocities`
in `__init__` (lines 64-71), as a dict lookup returning `none`
(Python `KeyError`) for unknown keys. -/
def initVelocities (direction : String) : Option Vel :=
  if direction = "left" then some { panX := -1, panY := 0, zoomX := 0 }
  else if direction = "right" then some { panX := 1, panY := 0, zoomX := 0 }
  else if direction = "up" then some { panX := 0, panY := 1, zoomX := 0 }
  else if direction = "down" then some { panX := 0, panY := -1, zoomX := 0 }
  else if direction = "zoom_in" then some { panX := 0, panY := 0, zoomX := 1 }
  else if direction = "zoom_out" then some { panX := 0, panY := 0, zoomX := -1 }
  else none

/-- The `self.speed_multipliers` dict (lines 74-77): each of the six
directions maps to `1.0`. -/
def initSpeedMultipliers (direction : String) : Option ℚ :=
  if direction = "left" then some 1
  else if direction = "right" then some 1
  else if direction = "up" then some 1
  else if direction = "down" then some 1
  else if direction = "zoom_in" then some 1
  else if direction = "zoom_out" then some 1
  else none

/-- External outcome of the construction-time round trips: whether the
ONVIF connection/device query authenticates, and the profile list
returned by `GetProfiles`. -/
structure ConnectEnv where
  deviceAuthOk : Bool
  profileTokens : List String

/-- Session establishment, modelling `__init__` (lines 14-86): on success
every field is initialised from the resolved profile token and the
template literals; on failure the exception propagates and no instance
exists. -/
def connect (ip : String) (port : Nat) (env : ConnectEnv) :
    Except ConnectionError Camera :=
  if env.deviceAuthOk = false then .error ConnectionError.authRejected
  else
    match env.profileTokens with
    | [] => .error ConnectionError.profileResolutionFailed
    | t :: _ =>
      .ok { ip := ip, port := port, token := t,
            velocities := initVelocities,
            speed_multipliers := initSpeedMultipliers,
            move_request := { profileToken := t, velocity := none },
            stop_request := { profileToken := t, panTilt := true, zoom := true },
            keep_alive_active := true }

instance {ε α : Type} [DecidableEq ε] [DecidableEq α] :
    DecidableEq (Except ε α) := fun a b =>
  match a, b with
  | .ok x, .ok y =>
    if h : x = y then isTrue (by rw [h]) else isFalse (by intro hc; cases hc; exact h rfl)
  | .error x, .error y =>
    if h : x = y then isTrue (by rw [h]) else isFalse (by intro hc; cases hc; exact h rfl)
  | .ok _, .error _ => isFalse (by intro hc; cases hc)
  | .error _, .ok _ => isFalse (by intro hc; cases hc)

/-- Result of the body of `_send_raw` (lines 146-151): what the caller of
the function observes, and how many HTTP posts were attempted. -/
structure SendResult where
  result : Except TransportError Unit
  attempts : Nat
deriving DecidableEq

/-- Embeds `_send_raw` (lines 146-151): one `session.post`, whose outcome
`post` is supplied by the transport; `except: pass` swallows any failure,
so the function always returns normally after exactly one attempt. -/
def send_raw (post : Except TransportError Unit) : SendResult :=
  match post with
  | .ok _ => { result := .ok (), attempts := 1 }
  | .error _ => { result := .ok (), attempts := 1 }

/-- Embeds `move_instant` (lines 125-144): dict lookup of the direction
(raising `KeyError` on a miss, leaving the instance untouched), scaling of
the template by `speed`, and formatting of the SOAP envelope.  The
instance state is returned alongside to record the op's effect on it. -/
def move_instant (cam : Camera) (direction : String) (speed : ℚ) :
    Except String MoveEnvelope × Camera :=
  match cam.velocities direction with
  | none => (.error "KeyError", cam)
  | some vel =>
    (.ok { token := cam.token,
           pan := vel.panX * speed,
           tilt := vel.panY * speed,
           zoom := vel.zoomX * speed }, cam)

/-- The whole `move_instant` dispatch including the background
`_send_raw` thread (line 144), with the transport outcome `post` of that
send: the caller sees `KeyError` on a bad direction (no envelope is built
and nothing is sent), otherwise the envelope together with the send
record. -/
def move_instant_dispatch (cam : Camera) (direction : String) (speed : ℚ)
    (post : Except TransportError Unit) :
    Except String (MoveEnvelope × SendResult) :=
  match (move_instant cam direction speed).1 with
  | .error e => .error e
  | .ok env => .ok (env, send_raw post)

/-- Embeds `stop_instant` (lines 173-176): formats the stop envelope from
the token; mutates nothing. -/
def stop_instant (cam : Camera) : StopEnvelope × Camera :=
  ({ token := cam.token, panTilt := true, zoom := true }, cam)

/-- The `stop_instant` dispatch including its background send. -/
def stop_instant_dispatch (cam : Camera) (post : Except TransportError Unit) :
    StopEnvelope × SendResult :=
  ((stop_instant cam).1, send_raw post)

/-- Embeds `move_fast` (lines 153-171): dict lookup (raising `KeyError`
on a miss), then assignment of the scaled velocity into the SHARED
pre-created `self.move_request` (line 159), then `ptz.ContinuousMove`
wrapped in `try/except: pass`.  The returned camera carries the mutated
`move_request`. -/
def move_fast (cam : Camera) (direction : String) (speed : ℚ) :
    Except String Unit × Camera :=
  match cam.velocities direction with
  | none => (.error "KeyError", cam)
  | some vel =>
    (.ok (),
     { cam with
       move_request :=
         { cam.move_request with
           velocity := some { panX := vel.panX * speed,
                              panY := vel.panY * speed,
                              zoomX := vel.zoomX * speed } } })

/-- Embeds `goto_preset` (lines 251-257): builds a fresh request object
and hands it to a background thread; the instance is untouched. -/
def goto_preset (cam : Camera) (preset_token : String) (speed : ℚ) :
    GotoPresetRequest × Camera :=
  ({ profileToken := cam.token, presetToken := preset_token,
     speedPanX := speed, speedPanY := speed, speedZoomX := speed }, cam)

/-- The `goto_preset` dispatch: the caller receives the request handle at
once; the transport outcome of `ptz.GotoPreset` lives only inside the
daemon thread (second component) and is never surfaced. -/
def goto_preset_dispatch (cam : Camera) (preset_token : String) (speed : ℚ)
    (post : Except TransportError Unit) :
    GotoPresetRequest × Except TransportError Unit :=
  ((goto_preset cam preset_token speed).1, post)

/-- Observable actions of one `_keep_alive` iteration. -/
inductive KAEvent where
  | sleep (seconds : Nat)
  | probeAttempt (succeeded : Bool)
  | logged
deriving DecidableEq

/-- Embeds the `try: session.head(...) except: pass` body of one
`_keep_alive` iteration (lines 119-123): the probe outcome is recorded,
any failure is swallowed without emitting a `logged` event, and no
exception escapes. -/
def probe_once (o : Except TransportError Unit) :
    Except TransportError (List KAEvent) :=
  match o with
  | .ok _ => .ok [KAEvent.probeAttempt true]
  | .error _ => .ok [KAEvent.probeAttempt false]

/-- Embeds the `_keep_alive` loop (lines 115-123) over a finite list of
probe outcomes: while `keep_alive_active`, each iteration sleeps 30
seconds and probes once; a probe error, were it to escape `probe_once`,
would abort the loop. -/
def keep_alive_run (cam : Camera) :
    List (Except TransportError Unit) →
    Camera × Except TransportError (List KAEvent)
  | [] => (cam, .ok [])
  | o :: rest =>
    if cam.keep_alive_active then
      match probe_once o with
      | .error e => (cam, .error e)
      | .ok evs =>
        match keep_alive_run cam rest with
        | (cam2, .error e) => (cam2, .error e)
        | (cam2, .ok evs2) => (cam2, .ok (KAEvent.sleep 30 :: evs ++ evs2))
    else (cam, .ok [])

/-- Whether a probe outcome succeeded. -/
def probeOk (o : Except TransportError Unit) : Bool :=
  match o with
  | .ok _ => true
  | .error _ => false

/-- The six direction keys of the velocity dict. -/
def validDirections : List String :=
  ["left", "right", "up", "down", "zoom_in", "zoom_out"]

/-- The three PTZ axes. -/
inductive Axis where
  | pan
  | tilt
  | zoom
deriving DecidableEq

/-- The axis named by a direction string, as the claims read the names:
left/right move the pan axis, up/down the tilt axis, zoom_in/zoom_out the
zoom axis. -/
def axisOf (direction : String) : Option Axis :=
  if direction = "left" ∨ direction = "right" then some Axis.pan
  else if direction = "up" ∨ direction = "down" then some Axis.tilt
  else if direction = "zoom_in" ∨ direction = "zoom_out" then some Axis.zoom
  else none

/-- Component of an envelope's velocity on a given axis. -/
def MoveEnvelope.component (env : MoveEnvelope) : Axis → ℚ
  | Axis.pan => env.pan
  | Axis.tilt => env.tilt
  | Axis.zoom => env.zoom

/-- A concrete camera instance as produced by a successful `connect`
with profile token `Profile_1`; used by witnesses and counterexamples. -/
def cam0 : Camera :=
  { ip := "192.168.50.224", port := 80, token := "Profile_1",
    velocities := initVelocities,
    speed_multipliers := initSpeedMultipliers,
    move_request := { profileToken := "Profile_1", velocity := none },
    stop_request := { profileToken := "Profile_1", panTilt := true, zoom := true },
    keep_alive_active := true }

/-- Sanity: `cam0` is exactly what `connect` builds on a successful
round trip. -/
theorem connect_cam0 :
    connect "192.168.50.224" 80
      { deviceAuthOk := true, profileTokens := ["Profile_1"] } = .ok cam0 := rfl

/-!
Part 2: the media ingest loop, `VideoThread` of `camera_gui.py`.
-/

/-- Outcome of one `cap.read()` call: a decoded frame (identified by its
sequence number) or a failed read. -/
inductive ReadResult where
  | ok (frame : Nat)
  | fail
deriving DecidableEq

/-- Observable actions of the `VideoThread.run` loop body (lines 49-73):
frame delivery via `change_pixmap_signal.emit`, a write to the recording
sink, the 100ms retry backoff, and the release/cooldown/reopen triple of
a reconnect attempt. -/
inductive StreamEvent where
  | deliver (frame : Nat)
  | write (frame : Nat)
  | backoff
  | release
  | cooldown
  | reopen (success : Bool)
deriving DecidableEq

/-- Mutable state of a `VideoThread` as the loop sees it: the
consecutive-failure counter, the recording flag, the sink handle and its
filename, plus an oracle giving the outcome of each successive
`cv2.VideoCapture` reopen attempt (the code never inspects it). -/
structure VideoThreadState where
  consecutive_failures : Nat
  recording : Bool
  video_writer : Option String
  recording_filename : Option String
  reopen_oracle : Nat → Bool
  reopen_count : Nat

/-- The reconnect threshold `max_failures` (line 47). -/
def max_failures : Nat := 30

/-- One iteration of the `while self._run_flag` body (lines 49-73) on a
given read outcome.  A successful read resets the counter, emits the
frame, and writes it to the sink when `self.recording and
self.video_writer is not None`.  A failed read increments the counter;
at the threshold the transport is released, the loop sleeps 1s, reopens,
and the counter is reset to 0 unconditionally; below it the loop sleeps
100ms. -/
def read_step (s : VideoThreadState) (r : ReadResult) :
    VideoThreadState × List StreamEvent :=
  match r with
  | .ok frame =>
    ({ s with consecutive_failures := 0 },
     StreamEvent.deliver frame ::
       (if s.recording && s.video_writer.isSome then [StreamEvent.write frame] else []))
  | .fail =>
    if max_failures ≤ s.consecutive_failures + 1 then
      ({ s with consecutive_failures := 0, reopen_count := s.reopen_count + 1 },
       [StreamEvent.release, StreamEvent.cooldown,
        StreamEvent.reopen (s.reopen_oracle s.reopen_count)])
    else
      ({ s with consecutive_failures := s.consecutive_failures + 1 },
       [StreamEvent.backoff])

/-- The loop run over a finite trace of read outcomes, collecting its
events in order. -/
def run_loop (s : VideoThreadState) :
    List ReadResult → VideoThreadState × List StreamEvent
  | [] => (s, [])
  | r :: rest =>
    ((run_loop (read_step s r).1 rest).1,
     (read_step s r).2 ++ (run_loop (read_step s r).1 rest).2)

/-- Observable sink operations of the recording sub-contract. -/
inductive SinkEvent where
  | openSink (filename : String)
  | releaseSink
deriving DecidableEq

/-- Embeds `VideoThread.start_recording` (lines 79-88): when not
recording, a sink is opened, the flag and filename are set and `True` is
returned; otherwise nothing happens and `False` is returned. -/
def start_recording (s : VideoThreadState) (filename : String) :
    Bool × VideoThreadState × List SinkEvent :=
  if s.recording = false then
    (true,
     { s with recording := true, video_writer := some filename,
              recording_filename := some filename },
     [SinkEvent.openSink filename])
  else (false, s, [])

/-- Embeds `VideoThread.stop_recording` (lines 90-99): when recording,
the flag is cleared, the sink (if any) is released and dropped, and the
recorded filename is returned; otherwise `None` is returned and nothing
happens. -/
def stop_recording (s : VideoThreadState) :
    Option String × VideoThreadState × List SinkEvent :=
  if s.recording = true then
    (s.recording_filename,
     { s with recording := false, video_writer := none },
     if s.video_writer.isSome then [SinkEvent.releaseSink] else [])
  else (none, s, [])

/-- Holds when, starting from counter value `c`, every maximal streak of
consecutive failed reads in the trace stays strictly below the
threshold. -/
def streaks_below : Nat → List ReadResult → Bool
  | _, [] => true
  | _, ReadResult.ok _ :: rest => streaks_below 0 rest
  | c, ReadResult.fail :: rest =>
    decide (c + 1 < max_failures) && streaks_below (c + 1) rest

/-- The frames delivered to the consumer, in emission order. -/
def delivered_frames (evs : List StreamEvent) : List Nat :=
  evs.filterMap fun e =>
    match e with
    | StreamEvent.deliver f => some f
    | _ => none

/-- The frames written to the recording sink, in write order. -/
def written_frames (evs : List StreamEvent) : List Nat :=
  evs.filterMap fun e =>
    match e with
    | StreamEvent.write f => some f
    | _ => none

/-- The successfully read frames of a trace, in arrival order. -/
def ok_frames (trace : List ReadResult) : List Nat :=
  trace.filterMap fun r =>
    match r with
    | ReadResult.ok f => some f
    | ReadResult.fail => none

/-- A fresh `VideoThread` state right after `__init__` plus stream open
(lines 23-44): counter 0, not recording, no sink; its reopen oracle makes
every reopen attempt fail. -/
def vt0 : VideoThreadState :=
  { consecutive_failures := 0, recording := false, video_writer := none,
    recording_filename := none, reopen_oracle := fun _ => false,
    reopen_count := 0 }

/-!
Claim theorems.
-/

lemma component_bounds_aux {m : ℚ} (h0 : 0 ≤ m) (h1 : m ≤ 1) (c : ℚ)
    (hc : c = -1 ∨ c = 0 ∨ c = 1) : -1 ≤ c * m ∧ c * m ≤ 1 := by
  rcases hc with rfl | rfl | rfl <;> constructor <;> nlinarith

lemma move_instant_of_some (cam : Camera) (d : String) (m : ℚ) (v : Vel)
    (hv : cam.velocities d = some v) :
    move_instant cam d m =
      (.ok { token := cam.token, pan := v.panX * m, tilt := v.panY * m,
             zoom := v.zoomX * m }, cam) := by
  simp [move_instant, hv]

/-- Claim C1, counterexample: the magnitude 0 lies in [0.0, 1.0] and
`left` is a valid direction naming the pan axis, yet the envelope built
by `move_instant('left', 0.0)` has pan component 0 — not nonzero on the
axis named by the direction, as the claim requires for every magnitude
in [0.0, 1.0]. -/
theorem move_instant_zero_magnitude_counterexample :
    (0 : ℚ) ≤ 0 ∧ (0 : ℚ) ≤ 1 ∧ "left" ∈ validDirections ∧
    axisOf "left" = some Axis.pan ∧
    (move_instant cam0 "left" 0).1 =
      Except.ok { token := "Profile_1", pan := 0, tilt := 0, zoom := 0 } ∧
    MoveEnvelope.component
      { token := "Profile_1", pan := 0, tilt := 0, zoom := 0 } Axis.pan = 0 := by
  have hv : cam0.velocities "left" = some { panX := -1, panY := 0, zoomX := 0 } := rfl
  refine ⟨le_refl 0, by norm_num, by decide, rfl, ?_, rfl⟩
  rw [move_instant_of_some cam0 "left" 0 _ hv]
  norm_num [cam0]

/-- Claim C1, amended: for every valid direction `d` and magnitude
`m ∈ [0,1]`, `move_instant` builds an envelope whose velocity is the unit
template for `d` scaled componentwise by `m`; each component lies in
[-1, 1], every axis other than the one named by `d` carries 0, and the
axis named by `d` carries a nonzero component whenever `m > 0` (at
`m = 0` it is 0 as well, against the unrestricted claim). -/
theorem move_instant_template_scaling (cam : Camera) (d : String) (m : ℚ)
    (hvel : cam.velocities = initVelocities) (hd : d ∈ validDirections)
    (h0 : 0 ≤ m) (h1 : m ≤ 1) :
    ∃ env : MoveEnvelope, (move_instant cam d m).1 = .ok env ∧
      (move_instant cam d m).2 = cam ∧
      env.token = cam.token ∧
      (∃ v : Vel, cam.velocities d = some v ∧
        env.pan = v.panX * m ∧ env.tilt = v.panY * m ∧ env.zoom = v.zoomX * m) ∧
      (∀ a : Axis, -1 ≤ env.component a ∧ env.component a ≤ 1) ∧
      (∀ a : Axis, axisOf d ≠ some a → env.component a = 0) ∧
      (0 < m → ∀ a : Axis, axisOf d = some a → env.component a ≠ 0) := by
  simp only [validDirections, List.mem_cons, List.not_mem_nil, or_false] at hd
  rcases hd with rfl | rfl | rfl | rfl | rfl | rfl
  · have hv : cam.velocities "left" = some { panX := -1, panY := 0, zoomX := 0 } := by
      rw [hvel]; rfl
    rw [move_instant_of_some cam _ m _ hv]
    refine ⟨_, rfl, rfl, rfl, ⟨_, hv, rfl, rfl, rfl⟩, ?_, ?_, ?_⟩
    · intro a; cases a <;> exact component_bounds_aux h0 h1 _ (by norm_num)
    · intro a ha
      cases a
      · exact absurd rfl ha
      · exact zero_mul m
      · exact zero_mul m
    · intro hm a ha
      obtain rfl : Axis.pan = a := by injection ha
      exact mul_ne_zero (by norm_num) (ne_of_gt hm)
  · have hv : cam.velocities "right" = some { panX := 1, panY := 0, zoomX := 0 } := by
      rw [hvel]; rfl
    rw [move_instant_of_some cam _ m _ hv]
    refine ⟨_, rfl, rfl, rfl, ⟨_, hv, rfl, rfl, rfl⟩, ?_, ?_, ?_⟩
    · intro a; cases a <;> exact component_bounds_aux h0 h1 _ (by norm_num)
    · intro a ha
      cases a
      · exact absurd rfl ha
      · exact zero_mul m
      · exact zero_mul m
    · intro hm a ha
      obtain rfl : Axis.pan = a := by injection ha
      exact mul_ne_zero (by norm_num) (ne_of_gt hm)
  · have hv : cam.velocities "up" = some { panX := 0, panY := 1, zoomX := 0 } := by
      rw [hvel]; rfl
    rw [move_instant_of_some cam _ m _ hv]
    refine ⟨_, rfl, rfl, rfl, ⟨_, hv, rfl, rfl, rfl⟩, ?_, ?_, ?_⟩
    · intro a; cases a <;> exact component_bounds_aux h0 h1 _ (by norm_num)
    · intro a ha
      cases a
      · exact zero_mul m
      · exact absurd rfl ha
      · exact zero_mul m
    · intro hm a ha
      obtain rfl : Axis.tilt = a := by injection ha
      exact mul_ne_zero (by norm_num) (ne_of_gt hm)
  · have hv : cam.velocities "down" = some { panX := 0, panY := -1, zoomX := 0 } := by
      rw [hvel]; rfl
    rw [move_instant_of_some cam _ m _ hv]
    refine ⟨_, rfl, rfl, rfl, ⟨_, hv, rfl, rfl, rfl⟩, ?_, ?_, ?_⟩
    · intro a; cases a <;> exact component_bounds_aux h0 h1 _ (by norm_num)
    · intro a ha
      cases a
      · exact zero_mul m
      · exact absurd rfl ha
      · exact zero_mul m
    · intro hm a ha
      obtain rfl : Axis.tilt = a := by injection ha
      exact mul_ne_zero (by norm_num) (ne_of_gt hm)
  · have hv : cam.velocities "zoom_in" = some { panX := 0, panY := 0, zoomX := 1 } := by
      rw [hvel]; rfl
    rw [move_instant_of_some cam _ m _ hv]
    refine ⟨_, rfl, rfl, rfl, ⟨_, hv, rfl, rfl, rfl⟩, ?_, ?_, ?_⟩
    · intro a; cases a <;> exact component_bounds_aux h0 h1 _ (by norm_num)
    · intro a ha
      cases a
      · exact zero_mul m
      · exact zero_mul m
      · exact absurd rfl ha
    · intro hm a ha
      obtain rfl : Axis.zoom = a := by injection ha
      exact mul_ne_zero (by norm_num) (ne_of_gt hm)
  · have hv : cam.velocities "zoom_out" = some { panX := 0, panY := 0, zoomX := -1 } := by
      rw [hvel]; rfl
    rw [move_instant_of_some cam _ m _ hv]
    refine ⟨_, rfl, rfl, rfl, ⟨_, hv, rfl, rfl, rfl⟩, ?_, ?_, ?_⟩
    · intro a; cases a <;> exact component_bounds_aux h0 h1 _ (by norm_num)
    · intro a ha
      cases a
      · exact zero_mul m
      · exact zero_mul m
      · exact absurd rfl ha
    · intro hm a ha
      obtain rfl : Axis.zoom = a := by injection ha
      exact mul_ne_zero (by norm_num) (ne_of_gt hm)

/-- Witness for the amended C1 at direction `left`, magnitude 1/2. -/
theorem move_instant_template_scaling_witness :
    ∃ env : MoveEnvelope, (move_instant cam0 "left" (1/2)).1 = .ok env ∧
      (move_instant cam0 "left" (1/2)).2 = cam0 ∧
      env.token = cam0.token ∧
      (∃ v : Vel, cam0.velocities "left" = some v ∧
        env.pan = v.panX * (1/2) ∧ env.tilt = v.panY * (1/2) ∧
        env.zoom = v.zoomX * (1/2)) ∧
      (∀ a : Axis, -1 ≤ env.component a ∧ env.component a ≤ 1) ∧
      (∀ a : Axis, axisOf "left" ≠ some a → env.component a = 0) ∧
      ((0:ℚ) < 1/2 → ∀ a : Axis, axisOf "left" = some a → env.component a ≠ 0) :=
  move_instant_template_scaling cam0 "left" (1/2) rfl (by decide)
    (by norm_num) (by norm_num)

/-- Claim C6: a transport failure during a move, stop, or preset send is
discarded at the dispatch boundary — `_send_raw` always returns normally
after exactly one post attempt (no retry, no surfaced error), and the
caller-visible result of `move_instant`, `stop_instant` and `goto_preset`
is the same whatever the transport outcome. -/
theorem dispatch_failures_discarded (post : Except TransportError Unit)
    (cam : Camera) (d : String) (m : ℚ) (pt : String) (sp : ℚ) :
    send_raw post = { result := .ok (), attempts := 1 } ∧
    move_instant_dispatch cam d m post = move_instant_dispatch cam d m (.ok ()) ∧
    stop_instant_dispatch cam post = stop_instant_dispatch cam (.ok ()) ∧
    (goto_preset_dispatch cam pt sp post).1 =
      (goto_preset_dispatch cam pt sp (.ok ())).1 := by
  have hsend : send_raw post = { result := .ok (), attempts := 1 } := by
    cases post <;> rfl
  refine ⟨hsend, ?_, ?_, rfl⟩
  · unfold move_instant_dispatch
    rw [hsend]
    rfl
  · unfold stop_instant_dispatch
    rw [hsend]
    rfl

/-- The caller-visible composition of session establishment and a first
`move_instant`, for C7: the move can only run on a successfully
constructed instance. -/
def connect_then_move (ip : String) (port : Nat) (env : ConnectEnv)
    (d : String) (m : ℚ) : Except ConnectionError (Except String MoveEnvelope) :=
  (connect ip port env).map fun cam => (move_instant cam d m).1

/-- Claim C7: if authentication is rejected or profile resolution fails
during construction, the error is surfaced synchronously by `connect`
and no instance exists, so a subsequent `move_instant` never runs — the
composed call is rejected with the same `ConnectionError` and no
envelope is ever built or sent. -/
theorem connect_failure_rejects_move (ip : String) (port : Nat)
    (env : ConnectEnv) (d : String) (m : ℚ)
    (hfail : env.deviceAuthOk = false ∨ env.profileTokens = []) :
    ∃ e : ConnectionError, connect ip port env = .error e ∧
      connect_then_move ip port env d m = .error e := by
  rcases hfail with h | h
  · exact ⟨ConnectionError.authRejected, by simp [connect, h],
      by simp [connect_then_move, connect, h, Except.map]⟩
  · rcases henv : env.deviceAuthOk with _ | _
    · exact ⟨ConnectionError.authRejected, by simp [connect, henv],
        by simp [connect_then_move, connect, henv, Except.map]⟩
    · exact ⟨ConnectionError.profileResolutionFailed,
        by simp [connect, henv, h],
        by simp [connect_then_move, connect, henv, h, Except.map]⟩

/-- Witness for C7: a transport that rejects authentication. -/
theorem connect_failure_rejects_move_witness :
    ∃ e : ConnectionError,
      connect "192.168.50.224" 80 { deviceAuthOk := false, profileTokens := [] } =
        .error e ∧
      connect_then_move "192.168.50.224" 80
        { deviceAuthOk := false, profileTokens := [] } "left" (1/2) = .error e :=
  connect_failure_rejects_move "192.168.50.224" 80
    { deviceAuthOk := false, profileTokens := [] } "left" (1/2) (Or.inl rfl)

lemma move_fast_of_some (cam : Camera) (d : String) (m : ℚ) (v : Vel)
    (hv : cam.velocities d = some v) :
    move_fast cam d m =
      (.ok (),
       { cam with
         move_request :=
           { cam.move_request with
             velocity := some { panX := v.panX * m, panY := v.panY * m,
                                zoomX := v.zoomX * m } } }) := by
  simp [move_fast, hv]

lemma keep_alive_run_fst (cam : Camera) :
    ∀ outs : List (Except TransportError Unit), (keep_alive_run cam outs).1 = cam := by
  intro outs
  induction outs with
  | nil => rfl
  | cons o rest ih =>
    rcases h : keep_alive_run cam rest with ⟨cam2, r⟩
    rw [h] at ih
    simp only at ih
    subst ih
    rw [keep_alive_run]
    rcases o with u | e <;> simp only [probe_once] <;> rw [h] <;>
      rcases r with e2 | evs2 <;> (split <;> rfl)

/-- Claim C8, counterexample: `move_fast` writes the scaled velocity into
the shared pre-created `move_request` object, so dispatching mutates
state that every in-flight `move_fast` call shares — the envelope is not
built privately.  Concretely, on a fresh instance the stored
`move_request` changes. -/
theorem move_fast_mutates_shared_request :
    (move_fast cam0 "left" (1/2)).2.move_request ≠ cam0.move_request := by
  have hv : cam0.velocities "left" = some { panX := -1, panY := 0, zoomX := 0 } := rfl
  rw [move_fast_of_some cam0 "left" (1/2) _ hv]
  intro hc
  have h2 := congrArg MoveRequest.velocity hc
  have h3 : cam0.move_request.velocity = none := rfl
  rw [h3] at h2
  simp at h2

/-- Claim C8, amended: the profile token and the velocity-template table
are read-only after construction — none of `move_instant`,
`stop_instant`, `move_fast`, `goto_preset` or the keep-alive loop changes
them — and `move_instant`, `stop_instant` and `goto_preset` build their
envelopes without touching any instance state; `move_fast` alone mutates
the shared pre-created `move_request` object (and nothing else). -/
theorem dispatch_state_readonly (cam : Camera) (d : String) (m : ℚ)
    (pt : String) (sp : ℚ) (outs : List (Except TransportError Unit)) :
    (move_instant cam d m).2 = cam ∧
    (stop_instant cam).2 = cam ∧
    (goto_preset cam pt sp).2 = cam ∧
    (keep_alive_run cam outs).1 = cam ∧
    (move_fast cam d m).2.token = cam.token ∧
    (move_fast cam d m).2.velocities = cam.velocities ∧
    (move_fast cam d m).2.speed_multipliers = cam.speed_multipliers ∧
    (move_fast cam d m).2.stop_request = cam.stop_request := by
  have hmi : (move_instant cam d m).2 = cam := by
    unfold move_instant
    rcases cam.velocities d with _ | v <;> rfl
  have hmf : (move_fast cam d m).2.token = cam.token ∧
      (move_fast cam d m).2.velocities = cam.velocities ∧
      (move_fast cam d m).2.speed_multipliers = cam.speed_multipliers ∧
      (move_fast cam d m).2.stop_request = cam.stop_request := by
    unfold move_fast
    rcases cam.velocities d with _ | v <;> exact ⟨rfl, rfl, rfl, rfl⟩
  exact ⟨hmi, rfl, rfl, keep_alive_run_fst cam outs,
    hmf.1, hmf.2.1, hmf.2.2.1, hmf.2.2.2⟩

/-- The event schedule the keep-alive loop produces on a list of probe
outcomes: one 30-second sleep followed by one probe attempt per
iteration. -/
def ka_events : List (Except TransportError Unit) → List KAEvent
  | [] => []
  | o :: rest =>
    KAEvent.sleep 30 :: KAEvent.probeAttempt (probeOk o) :: ka_events rest

/-- Whether a keep-alive event is a probe attempt. -/
def isProbe (e : KAEvent) : Bool :=
  match e with
  | KAEvent.probeAttempt _ => true
  | _ => false

lemma keep_alive_run_events (cam : Camera) (hact : cam.keep_alive_active = true) :
    ∀ outs : List (Except TransportError Unit),
      (keep_alive_run cam outs).2 = .ok (ka_events outs) := by
  intro outs
  induction outs with
  | nil => rfl
  | cons o rest ih =>
    rcases h : keep_alive_run cam rest with ⟨cam2, r⟩
    rw [h] at ih
    simp only at ih
    subst ih
    rw [keep_alive_run]
    rcases o with u | e <;> simp only [probe_once] <;> rw [h] <;>
      simp [hact, ka_events, probeOk]

lemma ka_events_no_log : ∀ outs, KAEvent.logged ∉ ka_events outs := by
  intro outs
  induction outs with
  | nil => simp [ka_events]
  | cons o rest ih => simp [ka_events, ih]

lemma ka_events_probe_count :
    ∀ outs, (ka_events outs).countP isProbe = outs.length := by
  intro outs
  induction outs with
  | nil => rfl
  | cons o rest ih => simp [ka_events, List.countP_cons, isProbe, ih]

lemma ka_events_sleep_count :
    ∀ outs, (ka_events outs).count (KAEvent.sleep 30) = outs.length := by
  intro outs
  induction outs with
  | nil => rfl
  | cons o rest ih => simp [ka_events, List.count_cons, ih]

/-- Claim C9, counterexample: a probe failure is swallowed by the bare
`except: pass` — the loop neither raises nor terminates, but it also
emits no log of the failure, against the claim that every probe failure
is logged. -/
theorem keep_alive_failure_not_logged :
    (keep_alive_run cam0 [Except.error TransportError.timeout]).2 =
      Except.ok [KAEvent.sleep 30, KAEvent.probeAttempt false] ∧
    KAEvent.logged ∉ [KAEvent.sleep 30, KAEvent.probeAttempt false] :=
  ⟨rfl, by decide⟩

/-- Claim C9, amended: while active, the keep-alive loop sleeps 30 time
units and then issues exactly one probe per interval; a probe failure is
silently discarded — never raised, never terminating the loop, and (in
divergence from the claim) never logged.  The loop state is untouched
and every iteration of the supplied schedule completes. -/
theorem keep_alive_probe_schedule (cam : Camera)
    (outs : List (Except TransportError Unit))
    (hact : cam.keep_alive_active = true) :
    keep_alive_run cam outs = (cam, .ok (ka_events outs)) ∧
    (ka_events outs).countP isProbe = outs.length ∧
    (ka_events outs).count (KAEvent.sleep 30) = outs.length ∧
    KAEvent.logged ∉ ka_events outs := by
  refine ⟨?_, ka_events_probe_count outs, ka_events_sleep_count outs,
    ka_events_no_log outs⟩
  have h1 := keep_alive_run_fst cam outs
  have h2 := keep_alive_run_events cam hact outs
  rcases h : keep_alive_run cam outs with ⟨cam2, r⟩
  rw [h] at h1 h2
  simp only at h1 h2
  rw [h1, h2]

/-- Witness for the amended C9: two probes, the second failing. -/
theorem keep_alive_probe_schedule_witness :
    keep_alive_run cam0
        [Except.ok (), Except.error TransportError.connectionReset] =
      (cam0, .ok (ka_events [Except.ok (), Except.error TransportError.connectionReset])) ∧
    (ka_events [Except.ok (), Except.error TransportError.connectionReset]).countP
        isProbe = 2 ∧
    (ka_events [Except.ok (), Except.error TransportError.connectionReset]).count
        (KAEvent.sleep 30) = 2 ∧
    KAEvent.logged ∉ ka_events [Except.ok (), Except.error TransportError.connectionReset] :=
  keep_alive_probe_schedule cam0
    [Except.ok (), Except.error TransportError.connectionReset] rfl

lemma initVelocities_eq_none (d : String) (hd : d ∉ validDirections) :
    initVelocities d = none := by
  simp only [validDirections, List.mem_cons, List.not_mem_nil, or_false,
    not_or] at hd
  obtain ⟨h1, h2, h3, h4, h5, h6⟩ := hd
  unfold initVelocities
  rw [if_neg h1, if_neg h2, if_neg h3, if_neg h4, if_neg h5, if_neg h6]

/-- Claim C10: a direction outside the six template keys fails the dict
lookup — `move_instant` (and `move_fast`) raise `KeyError` before any
envelope is built or anything is sent, and the instance is untouched;
each of the six valid directions finds its template and dispatches. -/
theorem invalid_direction_rejected (cam : Camera) (d : String) (m : ℚ)
    (post : Except TransportError Unit)
    (hvel : cam.velocities = initVelocities) :
    (d ∉ validDirections →
      cam.velocities d = none ∧
      move_instant_dispatch cam d m post = .error "KeyError" ∧
      (move_instant cam d m).1 = .error "KeyError" ∧
      move_fast cam d m = (.error "KeyError", cam)) ∧
    (d ∈ validDirections → ∃ v : Vel, cam.velocities d = some v ∧
      ∃ env : MoveEnvelope, ∃ sr : SendResult,
        move_instant_dispatch cam d m post = .ok (env, sr) ∧
        (move_fast cam d m).1 = .ok ()) := by
  constructor
  · intro hd
    have hnone : cam.velocities d = none := by
      rw [hvel]; exact initVelocities_eq_none d hd
    refine ⟨hnone, ?_, ?_, ?_⟩
    · simp [move_instant_dispatch, move_instant, hnone]
    · simp [move_instant, hnone]
    · simp [move_fast, hnone]
  · intro hd
    simp only [validDirections, List.mem_cons, List.not_mem_nil, or_false] at hd
    have hsome : ∃ v : Vel, cam.velocities d = some v := by
      rcases hd with rfl | rfl | rfl | rfl | rfl | rfl <;>
        exact ⟨_, by rw [hvel]; rfl⟩
    obtain ⟨v, hv⟩ := hsome
    refine ⟨v, hv,
      { token := cam.token, pan := v.panX * m, tilt := v.panY * m,
        zoom := v.zoomX * m }, send_raw post, ?_, ?_⟩
    · unfold move_instant_dispatch
      rw [move_instant_of_some cam d m v hv]
    · rw [move_fast_of_some cam d m v hv]

/-- Witness for C10: the diagonal direction `diag` is rejected before any
dispatch; the valid direction `up` dispatches. -/
theorem invalid_direction_rejected_witness :
    (cam0.velocities "diag" = none ∧
     move_instant_dispatch cam0 "diag" (1/2) (.ok ()) = .error "KeyError" ∧
     (move_instant cam0 "diag" (1/2)).1 = .error "KeyError" ∧
     move_fast cam0 "diag" (1/2) = (.error "KeyError", cam0)) ∧
    (∃ v : Vel, cam0.velocities "up" = some v ∧
      ∃ env : MoveEnvelope, ∃ sr : SendResult,
        move_instant_dispatch cam0 "up" (1/2) (.ok ()) = .ok (env, sr) ∧
        (move_fast cam0 "up" (1/2)).1 = .ok ()) :=
  ⟨(invalid_direction_rejected cam0 "diag" (1/2) (.ok ()) rfl).1 (by decide),
   (invalid_direction_rejected cam0 "up" (1/2) (.ok ()) rfl).2 (by decide)⟩

lemma read_step_ok_eq (s : VideoThreadState) (f : Nat) :
    read_step s (ReadResult.ok f) =
      ({ s with consecutive_failures := 0 },
       StreamEvent.deliver f ::
         (if s.recording && s.video_writer.isSome then [StreamEvent.write f]
          else [])) := rfl

lemma read_step_fail_low (s : VideoThreadState)
    (h : s.consecutive_failures + 1 < max_failures) :
    read_step s ReadResult.fail =
      ({ s with consecutive_failures := s.consecutive_failures + 1 },
       [StreamEvent.backoff]) := by
  unfold read_step
  rw [if_neg (by omega)]

lemma read_step_fail_high (s : VideoThreadState)
    (h : max_failures ≤ s.consecutive_failures + 1) :
    read_step s ReadResult.fail =
      ({ s with consecutive_failures := 0, reopen_count := s.reopen_count + 1 },
       [StreamEvent.release, StreamEvent.cooldown,
        StreamEvent.reopen (s.reopen_oracle s.reopen_count)]) := by
  unfold read_step
  rw [if_pos h]

lemma run_loop_cons (s : VideoThreadState) (r : ReadResult)
    (rest : List ReadResult) :
    run_loop s (r :: rest) =
      ((run_loop (read_step s r).1 rest).1,
       (read_step s r).2 ++ (run_loop (read_step s r).1 rest).2) := rfl

lemma run_loop_append (t1 : List ReadResult) :
    ∀ (s : VideoThreadState) (t2 : List ReadResult),
      run_loop s (t1 ++ t2) =
        ((run_loop (run_loop s t1).1 t2).1,
         (run_loop s t1).2 ++ (run_loop (run_loop s t1).1 t2).2) := by
  induction t1 with
  | nil => intro s t2; rfl
  | cons r rest ih =>
    intro s t2
    rw [List.cons_append, run_loop_cons, run_loop_cons]
    rw [ih (read_step s r).1 t2]
    simp [List.append_assoc]

lemma run_loop_delivered : ∀ (trace : List ReadResult) (s : VideoThreadState),
    delivered_frames (run_loop s trace).2 = ok_frames trace := by
  intro trace
  induction trace with
  | nil => intro s; rfl
  | cons r rest ih =>
    intro s
    rw [run_loop_cons]
    rcases r with f | _
    · rw [read_step_ok_eq]
      by_cases hb : (s.recording && s.video_writer.isSome) = true <;>
        simp [hb, delivered_frames, ok_frames, List.filterMap_cons,
          List.filterMap_append] at ih ⊢ <;>
        exact ih _
    · by_cases hth : max_failures ≤ s.consecutive_failures + 1
      · rw [read_step_fail_high s hth]
        simp [delivered_frames, ok_frames, List.filterMap_cons,
          List.filterMap_append] at ih ⊢
        exact ih _
      · rw [read_step_fail_low s (by omega)]
        simp [delivered_frames, ok_frames, List.filterMap_cons,
          List.filterMap_append] at ih ⊢
        exact ih _

lemma run_loop_written : ∀ (trace : List ReadResult) (s : VideoThreadState),
    (s.recording = true → s.video_writer.isSome = true) →
    written_frames (run_loop s trace).2 =
      (if s.recording = true then ok_frames trace else []) := by
  intro trace
  induction trace with
  | nil =>
    intro s h
    simp [run_loop, written_frames, ok_frames]
  | cons r rest ih =>
    intro s h
    rw [run_loop_cons]
    rcases r with f | _
    · rw [read_step_ok_eq]
      have hrest := ih { s with consecutive_failures := 0 } (by simpa using h)
      rcases hrec : s.recording with _ | _
      · have hb : (s.recording && s.video_writer.isSome) = false := by
          rw [hrec]; rfl
        simp [hb, hrec, written_frames, ok_frames, List.filterMap_cons,
          List.filterMap_append] at hrest ⊢
        exact hrest
      · have hw : s.video_writer.isSome = true := h hrec
        have hb : (s.recording && s.video_writer.isSome) = true := by
          rw [hrec, hw]; rfl
        simp [hb, hrec, hw, written_frames, ok_frames, List.filterMap_cons,
          List.filterMap_append] at hrest ⊢
        exact hrest
    · by_cases hth : max_failures ≤ s.consecutive_failures + 1
      · rw [read_step_fail_high s hth]
        have hrest := ih
          { s with consecutive_failures := 0, reopen_count := s.reopen_count + 1 }
          (by simpa using h)
        simp [written_frames, ok_frames, List.filterMap_cons,
          List.filterMap_append] at hrest ⊢
        exact hrest
      · rw [read_step_fail_low s (by omega)]
        have hrest := ih
          { s with consecutive_failures := s.consecutive_failures + 1 }
          (by simpa using h)
        simp [written_frames, ok_frames, List.filterMap_cons,
          List.filterMap_append] at hrest ⊢
        exact hrest

lemma run_loop_no_reconnect :
    ∀ (trace : List ReadResult) (s : VideoThreadState),
      streaks_below s.consecutive_failures trace = true →
      (∀ b, StreamEvent.reopen b ∉ (run_loop s trace).2) ∧
      StreamEvent.release ∉ (run_loop s trace).2 ∧
      StreamEvent.cooldown ∉ (run_loop s trace).2 := by
  intro trace
  induction trace with
  | nil =>
    intro s h
    exact ⟨fun b => List.not_mem_nil _, List.not_mem_nil _, List.not_mem_nil _⟩
  | cons r rest ih =>
    intro s h
    rw [run_loop_cons]
    rcases r with f | _
    · simp only [streaks_below] at h
      have hrest := ih { s with consecutive_failures := 0 } (by simpa using h)
      rw [read_step_ok_eq]
      by_cases hb : (s.recording && s.video_writer.isSome) = true
      · rw [if_pos hb]
        refine ⟨fun b => ?_, ?_, ?_⟩ <;>
        · intro hmem
          rcases List.mem_append.mp hmem with hmem | hmem
          · simp at hmem
          · first
            | exact (hrest.1 _) hmem
            | exact hrest.2.1 hmem
            | exact hrest.2.2 hmem
      · rw [if_neg hb]
        refine ⟨fun b => ?_, ?_, ?_⟩ <;>
        · intro hmem
          rcases List.mem_append.mp hmem with hmem | hmem
          · simp at hmem
          · first
            | exact (hrest.1 _) hmem
            | exact hrest.2.1 hmem
            | exact hrest.2.2 hmem
    · simp only [streaks_below, Bool.and_eq_true, decide_eq_true_eq] at h
      obtain ⟨hlt, hrest0⟩ := h
      rw [read_step_fail_low s hlt]
      have hrest := ih { s with consecutive_failures := s.consecutive_failures + 1 }
        (by simpa using hrest0)
      refine ⟨fun b => ?_, ?_, ?_⟩ <;>
      · intro hmem
        rcases List.mem_append.mp hmem with hmem | hmem
        · simp at hmem
        · first
          | exact (hrest.1 _) hmem
          | exact hrest.2.1 hmem
          | exact hrest.2.2 hmem

/-- Claim C2: so long as every maximal streak of consecutive failed
reads stays strictly below the threshold of 30, the loop never releases
or reopens the transport (never enters Reconnecting), every successful
read resets the consecutive-failure counter to 0, and every successfully
read frame is delivered to the consumer in order with zero gaps. -/
theorem below_threshold_streams_uninterrupted (s : VideoThreadState)
    (trace : List ReadResult)
    (hstreaks : streaks_below s.consecutive_failures trace = true) :
    (∀ b, StreamEvent.reopen b ∉ (run_loop s trace).2) ∧
    StreamEvent.release ∉ (run_loop s trace).2 ∧
    StreamEvent.cooldown ∉ (run_loop s trace).2 ∧
    delivered_frames (run_loop s trace).2 = ok_frames trace ∧
    (∀ (s2 : VideoThreadState) (f : Nat),
      (read_step s2 (ReadResult.ok f)).1.consecutive_failures = 0) := by
  obtain ⟨h1, h2, h3⟩ := run_loop_no_reconnect trace s hstreaks
  exact ⟨h1, h2, h3, run_loop_delivered trace s, fun s2 f => rfl⟩

/-- Witness for C2: a trace with two sub-threshold failure streaks
around successful reads, starting from a fresh counter. -/
theorem below_threshold_streams_uninterrupted_witness :
    (∀ b, StreamEvent.reopen b ∉
      (run_loop vt0 [ReadResult.fail, ReadResult.ok 1, ReadResult.fail,
        ReadResult.fail, ReadResult.ok 2]).2) ∧
    StreamEvent.release ∉
      (run_loop vt0 [ReadResult.fail, ReadResult.ok 1, ReadResult.fail,
        ReadResult.fail, ReadResult.ok 2]).2 ∧
    StreamEvent.cooldown ∉
      (run_loop vt0 [ReadResult.fail, ReadResult.ok 1, ReadResult.fail,
        ReadResult.fail, ReadResult.ok 2]).2 ∧
    delivered_frames
      (run_loop vt0 [ReadResult.fail, ReadResult.ok 1, ReadResult.fail,
        ReadResult.fail, ReadResult.ok 2]).2 =
      ok_frames [ReadResult.fail, ReadResult.ok 1, ReadResult.fail,
        ReadResult.fail, ReadResult.ok 2] ∧
    (∀ (s2 : VideoThreadState) (f : Nat),
      (read_step s2 (ReadResult.ok f)).1.consecutive_failures = 0) :=
  below_threshold_streams_uninterrupted vt0
    [ReadResult.fail, ReadResult.ok 1, ReadResult.fail, ReadResult.fail,
     ReadResult.ok 2] (by decide)

lemma run_fails_below : ∀ (k : Nat) (s : VideoThreadState),
    s.consecutive_failures + k < max_failures →
    run_loop s (List.replicate k ReadResult.fail) =
      ({ s with consecutive_failures := s.consecutive_failures + k },
       List.replicate k StreamEvent.backoff) := by
  intro k
  induction k with
  | zero => intro s h; simp [run_loop]
  | succ n ih =>
    intro s h
    rw [List.replicate_succ, run_loop_cons, read_step_fail_low s (by omega)]
    rw [ih { s with consecutive_failures := s.consecutive_failures + 1 } (by simp; omega)]
    simp only [List.replicate_succ]
    refine Prod.ext ?_ rfl
    simp only
    congr 1
    omega

lemma run_thirty_fails (s : VideoThreadState) (h : s.consecutive_failures = 0) :
    run_loop s (List.replicate max_failures ReadResult.fail) =
      ({ s with consecutive_failures := 0, reopen_count := s.reopen_count + 1 },
       List.replicate 29 StreamEvent.backoff ++
         [StreamEvent.release, StreamEvent.cooldown,
          StreamEvent.reopen (s.reopen_oracle s.reopen_count)]) := by
  have h30 : List.replicate max_failures ReadResult.fail =
      List.replicate 29 ReadResult.fail ++ [ReadResult.fail] := by
    rw [show max_failures = 29 + 1 from rfl, List.replicate_succ']
  rw [h30, run_loop_append, run_fails_below 29 s (by simp only [max_failures]; omega)]
  simp only
  rw [run_loop_cons]
  rw [read_step_fail_high { s with consecutive_failures := s.consecutive_failures + 29 }
    (by simp only [max_failures]; simp)]
  simp [run_loop, h]

/-- Claim C3, counterexample: start the loop with a zero counter against
a transport whose reopen attempts all fail.  After the 30th failed read
the loop releases, waits, and reopens; the reopen fails, yet the very
next event is an ordinary read backoff (Streaming behaviour) and the
counter has restarted at 1 — the loop did not remain in Reconnecting
retrying the reopen, and the counter was reset to 0 despite the failed
reopen. -/
theorem failed_reopen_returns_to_read_loop :
    (run_loop vt0 (List.replicate 31 ReadResult.fail)).2 =
      List.replicate 29 StreamEvent.backoff ++
        [StreamEvent.release, StreamEvent.cooldown, StreamEvent.reopen false,
         StreamEvent.backoff] ∧
    (run_loop vt0 (List.replicate 31 ReadResult.fail)).1.consecutive_failures = 1 := by
  constructor
  · rfl
  · rfl

/-- Claim C3, amended: when the consecutive-failure counter reaches the
threshold of 30 the loop closes the transport, waits the cooldown, and
reopens it; the counter is reset to 0 unconditionally — whatever the
reopen outcome — and the loop returns to reading, so after a failed
reopen the next reopen attempt happens only after 30 further consecutive
read failures; the loop never terminates on reopen failure. -/
theorem reconnect_at_threshold_resets_counter (s : VideoThreadState)
    (h : s.consecutive_failures = 0) :
    (run_loop s (List.replicate max_failures ReadResult.fail)).2 =
      List.replicate 29 StreamEvent.backoff ++
        [StreamEvent.release, StreamEvent.cooldown,
         StreamEvent.reopen (s.reopen_oracle s.reopen_count)] ∧
    (run_loop s (List.replicate max_failures ReadResult.fail)).1.consecutive_failures
      = 0 ∧
    (run_loop s (List.replicate (2 * max_failures) ReadResult.fail)).2 =
      (List.replicate 29 StreamEvent.backoff ++
        [StreamEvent.release, StreamEvent.cooldown,
         StreamEvent.reopen (s.reopen_oracle s.reopen_count)]) ++
      (List.replicate 29 StreamEvent.backoff ++
        [StreamEvent.release, StreamEvent.cooldown,
         StreamEvent.reopen (s.reopen_oracle (s.reopen_count + 1))]) ∧
    (run_loop s (List.replicate (2 * max_failures) ReadResult.fail)).1.consecutive_failures
      = 0 := by
  have h1 := run_thirty_fails s h
  have hsplit : List.replicate (2 * max_failures) ReadResult.fail =
      List.replicate max_failures ReadResult.fail ++
        List.replicate max_failures ReadResult.fail := by
    rw [two_mul, List.replicate_add]
  have h2 := run_thirty_fails
    { s with consecutive_failures := 0, reopen_count := s.reopen_count + 1 } rfl
  refine ⟨by rw [h1], by rw [h1], ?_, ?_⟩
  · rw [hsplit, run_loop_append, h1]
    simp only
    rw [h2]
  · rw [hsplit, run_loop_append, h1]
    simp only
    rw [h2]

/-- Witness for the amended C3 at the fresh state whose reopens fail. -/
theorem reconnect_at_threshold_resets_counter_witness :
    (run_loop vt0 (List.replicate max_failures ReadResult.fail)).2 =
      List.replicate 29 StreamEvent.backoff ++
        [StreamEvent.release, StreamEvent.cooldown,
         StreamEvent.reopen (vt0.reopen_oracle vt0.reopen_count)] ∧
    (run_loop vt0 (List.replicate max_failures ReadResult.fail)).1.consecutive_failures
      = 0 ∧
    (run_loop vt0 (List.replicate (2 * max_failures) ReadResult.fail)).2 =
      (List.replicate 29 StreamEvent.backoff ++
        [StreamEvent.release, StreamEvent.cooldown,
         StreamEvent.reopen (vt0.reopen_oracle vt0.reopen_count)]) ++
      (List.replicate 29 StreamEvent.backoff ++
        [StreamEvent.release, StreamEvent.cooldown,
         StreamEvent.reopen (vt0.reopen_oracle (vt0.reopen_count + 1))]) ∧
    (run_loop vt0 (List.replicate (2 * max_failures) ReadResult.fail)).1.consecutive_failures
      = 0 :=
  reconnect_at_threshold_resets_counter vt0 rfl

/-- A `VideoThread` state with an active recording, as left by a
successful `start_recording "a.mp4"` on the fresh state. -/
def rec0 : VideoThreadState :=
  { consecutive_failures := 0, recording := true,
    video_writer := some "a.mp4", recording_filename := some "a.mp4",
    reopen_oracle := fun _ => false, reopen_count := 0 }

/-- Claim C4: `start_recording` while recording is already active is a
no-op — it returns `False`, opens no second sink, and leaves the whole
state (including the existing sink) unchanged; `stop_recording` while
not recording returns `None`, performs no sink operation, and leaves the
state unchanged. -/
theorem recording_noop_guards (s : VideoThreadState) (filename : String) :
    (s.recording = true → start_recording s filename = (false, s, [])) ∧
    (s.recording = false → stop_recording s = (none, s, [])) := by
  constructor
  · intro h
    simp [start_recording, h]
  · intro h
    simp [stop_recording, h]

/-- Witness for C4: the second `start_recording` on an already-recording
state is refused, and `stop_recording` on the fresh state is a no-op. -/
theorem recording_noop_guards_witness :
    start_recording rec0 "b.mp4" = (false, rec0, []) ∧
    stop_recording vt0 = (none, vt0, []) :=
  ⟨(recording_noop_guards rec0 "b.mp4").1 rfl,
   (recording_noop_guards vt0 "b.mp4").2 rfl⟩

/-- Claim C5: over any run of the loop, the delivered frames are exactly
the successfully read frames, in order — each is delivered exactly once —
and, provided a recording sink is present whenever the recording flag is
set, the frames written to the sink are exactly the successfully read
frames when the flag is active and none otherwise: a frame is written at
most once and routed all-or-nothing. -/
theorem frames_routed_exactly_once (s : VideoThreadState)
    (trace : List ReadResult)
    (hinv : s.recording = true → s.video_writer.isSome = true) :
    delivered_frames (run_loop s trace).2 = ok_frames trace ∧
    written_frames (run_loop s trace).2 =
      (if s.recording = true then ok_frames trace else []) :=
  ⟨run_loop_delivered trace s, run_loop_written trace s hinv⟩

/-- Witness for C5: a short trace with a failure in the middle, run once
with recording active and once without. -/
theorem frames_routed_exactly_once_witness :
    (delivered_frames
        (run_loop rec0 [ReadResult.ok 1, ReadResult.fail, ReadResult.ok 2]).2 =
      ok_frames [ReadResult.ok 1, ReadResult.fail, ReadResult.ok 2] ∧
     written_frames
        (run_loop rec0 [ReadResult.ok 1, ReadResult.fail, ReadResult.ok 2]).2 =
      (if rec0.recording = true
       then ok_frames [ReadResult.ok 1, ReadResult.fail, ReadResult.ok 2]
       else [])) ∧
    (delivered_frames
        (run_loop vt0 [ReadResult.ok 1, ReadResult.fail, ReadResult.ok 2]).2 =
      ok_frames [ReadResult.ok 1, ReadResult.fail, ReadResult.ok 2] ∧
     written_frames
        (run_loop vt0 [ReadResult.ok 1, ReadResult.fail, ReadResult.ok 2]).2 =
      (if vt0.recording = true
       then ok_frames [ReadResult.ok 1, ReadResult.fail, ReadResult.ok 2]
       else [])) :=
  ⟨frames_routed_exactly_once rec0
      [ReadResult.ok 1, ReadResult.fail, ReadResult.ok 2] (fun _ => rfl),
   frames_routed_exactly_once vt0
      [ReadResult.ok 1, ReadResult.fail, ReadResult.ok 2] (by simp [vt0])⟩
